import Mathlib

/-!
Shallow embedding of the book-recommendation-system repository
(Express server in `package.json`, browser modules
`public/scripts/modelIntegration.js` and `public/scripts/api.js`),
together with theorems checking the natural-language specification
against this code.

Numbers are modelled as exact rationals (`ℚ`); JavaScript strings are
modelled as Lean `String`s (all inputs of interest are ASCII or plain
Unicode scalars, where JS UTF-16 length and Lean scalar length agree).
-/

namespace BookRec

/-- Does the first list occur as a prefix of the second? -/
def charsPre : List Char → List Char → Bool
  | [], _ => true
  | _ :: _, [] => false
  | a :: as, b :: bs => a == b && charsPre as bs

/-- Does the first list occur as a contiguous sublist of the second? -/
def charsSub (pat : List Char) : List Char → Bool
  | [] => charsPre pat []
  | b :: bs => charsPre pat (b :: bs) || charsSub pat bs

/-- JS `s.includes(pat)`: substring containment. -/
def jsIncludes (s pat : String) : Bool :=
  charsSub pat.data s.data

/-- JS `s.trim()`: drop leading and trailing whitespace. -/
def jsTrim (s : String) : String :=
  String.mk (((s.data.dropWhile Char.isWhitespace).reverse.dropWhile Char.isWhitespace).reverse)

/-- JS `s.toLowerCase()` (character-wise lowering; ASCII on all inputs of
interest). -/
def jsToLower (s : String) : String :=
  String.mk (s.data.map Char.toLower)

/-- Split a character list at every character satisfying `p`, keeping
empty pieces (the splitting underlying JS `s.split(re)`). -/
def splitChars (p : Char → Bool) : List Char → List (List Char)
  | [] => [[]]
  | c :: rest =>
    let r := splitChars p rest
    if p c then [] :: r
    else
      match r with
      | [] => [[c]]
      | h :: t => (c :: h) :: t

/-- Split a string at whitespace characters. -/
def jsSplitWs (s : String) : List String :=
  (splitChars Char.isWhitespace s.data).map String.mk

namespace ModelIntegration

/-- The fixed keyword→genre table of `ModelIntegration.extractGenres`,
in the object-literal order of the source. -/
def genreKeywords : List (String × List String) :=
  [("mystery", ["mystery", "detective", "crime", "thriller", "suspense"]),
   ("romance", ["romance", "love", "romantic", "relationship"]),
   ("fantasy", ["fantasy", "magic", "wizard", "dragon", "medieval"]),
   ("sci-fi", ["science fiction", "sci-fi", "space", "future", "technology"]),
   ("historical", ["historical", "history", "period", "war", "ancient"]),
   ("horror", ["horror", "scary", "ghost", "supernatural", "dark"]),
   ("biography", ["biography", "memoir", "life story", "autobiography"]),
   ("self-help", ["self-help", "motivation", "improvement", "guide"])]

/-- Embedding of `ModelIntegration.extractGenres`: a genre is included when any of its
keywords occurs as a substring of the lowercased query. -/
def extractGenres (query : String) : List String :=
  (genreKeywords.filter fun p => p.2.any fun k => jsIncludes (jsToLower query) k).map Prod.fst

/-- The stopword set of `ModelIntegration.extractKeywords`. -/
def stopWords : List String :=
  ["the", "a", "an", "and", "or", "but", "in", "on", "at", "to", "for",
   "of", "with", "by", "from", "up", "about", "into", "through", "during",
   "before", "after", "above", "below", "between", "among", "is", "are",
   "was", "were", "be", "been", "being", "have", "has", "had", "do",
   "does", "did", "will", "would", "could", "should", "may", "might",
   "must", "can", "like", "similar", "book", "books", "novel", "story"]

/-- Embedding of `ModelIntegration.extractKeywords`: lowercase the raw query, split on
whitespace, keep tokens of length greater than 2 that are not stopwords,
take the first 10.  (Splitting on single whitespace characters produces
extra empty tokens for consecutive whitespace compared with the source's
run-based split, but those tokens are removed by the very same length
filter, so the composed function agrees with the source.) -/
def extractKeywords (query : String) : List String :=
  ((jsSplitWs (jsToLower query)).filter fun w =>
    decide (2 < w.length) && !(stopWords.contains w)).take 10

/-- JS `\w` character class: ASCII letters, digits and underscore. -/
def isWordChar (c : Char) : Bool :=
  c.isAlpha || c.isDigit || c = '_'

/-- Helper for collapsing whitespace runs, the effect of the source's
`replace` of repeated whitespace by a single space: the Boolean records
whether the previous character was whitespace. -/
def collapseWsAux : Bool → List Char → List Char
  | _, [] => []
  | prevWs, c :: rest =>
    if c.isWhitespace then
      if prevWs then collapseWsAux true rest
      else ' ' :: collapseWsAux true rest
    else c :: collapseWsAux false rest

/-- Embedding of `ModelIntegration.cleanQuery`: lowercase, trim, replace every
character that is neither a word character nor whitespace by a space,
then collapse whitespace runs to a single space. -/
def cleanQuery (query : String) : String :=
  let lowered := jsTrim (jsToLower query)
  let replaced := lowered.data.map fun c =>
    if isWordChar c || c.isWhitespace then c else ' '
  String.mk (collapseWsAux false replaced)

/-- Modelled from the spec: the keyword extraction as the specification
words it, operating on the cleaned text (`cleanQuery`) rather than on the
raw query.  Used only to compare the specified behaviour with the
source's `extractKeywords`. -/
def keywordsFromCleanedText (query : String) : List String :=
  ((jsSplitWs (cleanQuery query)).filter fun w =>
    decide (2 < w.length) && !(stopWords.contains w)).take 10

/-- JS regex test `/^[A-Z]/` on the raw query. -/
def startsWithUpper (query : String) : Bool :=
  match query.data with
  | [] => false
  | c :: _ => decide ('A' ≤ c) && decide (c ≤ 'Z')

/-- Embedding of `ModelIntegration.determineQueryType`: the five-rule cascade. -/
def determineQueryType (query : String) : String :=
  let lowerQuery := jsToLower query
  if jsIncludes lowerQuery "by " || jsIncludes lowerQuery "author" then "author"
  else if jsIncludes lowerQuery "like " || jsIncludes lowerQuery "similar to" then "similar"
  else if !(extractGenres query).isEmpty then "genre"
  else if decide (query.length < 30) && startsWithUpper query then "title"
  else "description"

/-- A candidate book as seen by the post-processing functions: the fields
read by `calculateRelevanceScore`, `generateMatchReasons` and
`calculateConfidence`.  Absent JSON fields are `none`. -/
structure Book where
  similarity : Option ℚ
  genre : Option String
  author : Option String
  rating : Option ℚ
deriving DecidableEq

/-- The extracted features consumed by the scoring functions
(`query.extractedFeatures.genres` / `.authors`). -/
structure QueryFeatures where
  genres : List String
  authors : List String
deriving DecidableEq

/-- Condition of the genre boost: some extracted genre is a substring of
the lowercased book genre (`book.genre && book.genre.toLowerCase().includes(genre)`). -/
def genreMatch (book : Book) (f : QueryFeatures) : Bool :=
  f.genres.any fun g =>
    match book.genre with
    | some bg => jsIncludes (jsToLower bg) g
    | none => false

/-- Condition of the author boost: some extracted author, lowercased, is a
substring of the lowercased book author field. -/
def authorMatch (book : Book) (f : QueryFeatures) : Bool :=
  f.authors.any fun a =>
    match book.author with
    | some ba => jsIncludes (jsToLower ba) (jsToLower a)
    | none => false

/-- Embedding of `ModelIntegration.calculateRelevanceScore`: start from
`book.similarity || 0.5` (so an absent or zero similarity falls back to
the 0.5 default), add the genre and author boosts, clamp at 1. -/
def calculateRelevanceScore (book : Book) (f : QueryFeatures) : ℚ :=
  let score : ℚ :=
    match book.similarity with
    | some s => if s = 0 then 0.5 else s
    | none => 0.5
  let score := if genreMatch book f then score + 0.1 else score
  let score := if authorMatch book f then score + 0.15 else score
  min score 1

/-- JS comparison `book.similarity > 0.8` (false when the field is absent). -/
def similarityAbove (book : Book) (t : ℚ) : Bool :=
  match book.similarity with
  | some s => decide (t < s)
  | none => false

/-- JS comparison `book.rating > t` (false when the field is absent). -/
def ratingAbove (book : Book) (t : ℚ) : Bool :=
  match book.rating with
  | some r => decide (t < r)
  | none => false

/-- Embedding of `ModelIntegration.calculateConfidence`: base 0.7, plus 0.2 for
similarity above 0.8, plus 0.1 for rating above 4.0, plus 0.1 for a
non-empty extracted genre list, clamped at 1. -/
def calculateConfidence (book : Book) (f : QueryFeatures) : ℚ :=
  let confidence : ℚ := 0.7
  let confidence := if similarityAbove book 0.8 then confidence + 0.2 else confidence
  let confidence := if ratingAbove book 4 then confidence + 0.1 else confidence
  let confidence := if !f.genres.isEmpty then confidence + 0.1 else confidence
  min confidence 1

end ModelIntegration

/-- A book record as it appears in the JSON payloads (mock data of the
server and recommendation lists returned by the ML service). -/
structure BookRecord where
  id : Nat
  title : String
  author : String
  description : String
  cover : String
  rating : ℚ
  genre : String
  similarity : ℚ
deriving DecidableEq

/-- The optional user-supplied preferences object (`req.body.preferences`
on the server, the `preferences` argument of `BookAPI.getRecommendations`
in the browser).  A `none` field models an absent key. -/
structure JsPrefs where
  genres : Option (List String)
  authors : Option (List String)
  minRating : Option ℚ
  maxResults : Option ℚ
deriving DecidableEq

/-- The preferences object after the default-then-spread construction
used both by the server and by the browser client. -/
structure BuiltPrefs where
  genres : List String
  authors : List String
  minRating : ℚ
  maxResults : ℚ
deriving DecidableEq

/-- JS `x || d` on an optional number: the default applies when the field
is absent or zero (zero is falsy). -/
def jsOrNum (x : Option ℚ) (d : ℚ) : ℚ :=
  match x with
  | some v => if v = 0 then d else v
  | none => d

namespace BookAPI

/-- A stored cache entry: `{ data, timestamp }`. -/
structure CacheEntry (α : Type) where
  data : α
  timestamp : Int
deriving DecidableEq

/-- Timeout `this.cacheTimeout = 5 * 60 * 1000` (milliseconds). -/
def cacheTimeout : Int := 5 * 60 * 1000

/-- JS `Map.prototype.get` on the insertion-ordered association list. -/
def mapGet {κ α : Type} [DecidableEq κ] (m : List (κ × α)) (k : κ) : Option α :=
  (m.find? fun p => decide (p.1 = k)).map Prod.snd

/-- JS `Map.prototype.set`: update in place when the key is present
(keeping its position), otherwise append at the end. -/
def mapSet {κ α : Type} [DecidableEq κ] (m : List (κ × α)) (k : κ) (v : α) : List (κ × α) :=
  if m.any fun p => decide (p.1 = k) then
    m.map fun p => if p.1 = k then (k, v) else p
  else m ++ [(k, v)]

/-- JS `Map.prototype.delete`. -/
def mapDelete {κ α : Type} [DecidableEq κ] (m : List (κ × α)) (k : κ) : List (κ × α) :=
  m.filter fun p => !decide (p.1 = k)

/-- Embedding of `BookAPI.getFromCache`: a miss on an absent key; on a present key,
expire (delete, report miss) when `now - timestamp > cacheTimeout`,
otherwise return the stored data.  The second component is the cache
after the call (lazy expiry mutates it). -/
def getFromCache {κ α : Type} [DecidableEq κ] (cache : List (κ × CacheEntry α)) (k : κ)
    (now : Int) : Option α × List (κ × CacheEntry α) :=
  match mapGet cache k with
  | none => (none, cache)
  | some e =>
    if cacheTimeout < now - e.timestamp then (none, mapDelete cache k)
    else (some e.data, cache)

/-- Embedding of `BookAPI.setCache`: insert `{data, timestamp := now}`, then if the
size exceeds 50, delete the first key in iteration (= insertion) order. -/
def setCache {κ α : Type} [DecidableEq κ] (cache : List (κ × CacheEntry α)) (k : κ) (d : α)
    (now : Int) : List (κ × CacheEntry α) :=
  let c := mapSet cache k ⟨d, now⟩
  if 50 < c.length then
    match c with
    | [] => c
    | e :: _ => mapDelete c e.1
  else c

/-- JSON string literal (the strings of interest need no escaping). -/
def jsonStr (s : String) : String := "\"" ++ s ++ "\""

/-- JSON array of strings. -/
def jsonList (l : List String) : String :=
  "[" ++ String.intercalate "," (l.map jsonStr) ++ "]"

/-- Serialization `JSON.stringify(preferences)` over the four known
preference keys, in field order, skipping absent keys; number rendering
is the rational's `toString` (the exact digits never matter to the
claims, only which characters can occur). -/
def serializePrefs (p : JsPrefs) : String :=
  let fields :=
    (match p.genres with
     | some g => [jsonStr "genres" ++ ":" ++ jsonList g]
     | none => []) ++
    (match p.authors with
     | some a => [jsonStr "authors" ++ ":" ++ jsonList a]
     | none => []) ++
    (match p.minRating with
     | some r => [jsonStr "minRating" ++ ":" ++ toString r]
     | none => []) ++
    (match p.maxResults with
     | some m => [jsonStr "maxResults" ++ ":" ++ toString m]
     | none => [])
  "\x7b" ++ String.intercalate "," fields ++ "\x7d"

/-- Exceptions of the browser code: the `InvalidCharacterError` thrown by
`btoa` on characters above U+00FF, and ordinary `Error(msg)` values. -/
inductive JsError where
  | invalidCharacter
  | jsError (msg : String)
deriving DecidableEq

/-- The base64 alphabet. -/
def base64Table : List Char :=
  "ABCDEFGHIJKLMNOPQRSTUVWXYZabcdefghijklmnopqrstuvwxyz0123456789+/".toList

/-- Character of the base64 alphabet at a 6-bit index. -/
def b64Char (n : Nat) : Char := base64Table.getD n 'A'

/-- Base64 encoding of a byte sequence, three bytes to four characters,
with `=` padding. -/
def b64Encode : List Nat → List Char
  | [] => []
  | [a] => [b64Char (a / 4), b64Char (a % 4 * 16), '=', '=']
  | [a, b] => [b64Char (a / 4), b64Char (a % 4 * 16 + b / 16), b64Char (b % 16 * 4), '=']
  | a :: b :: c :: rest =>
    b64Char (a / 4) :: b64Char (a % 4 * 16 + b / 16) ::
      b64Char (b % 16 * 4 + c / 64) :: b64Char (c % 64) :: b64Encode rest

/-- JS `btoa`: throws `InvalidCharacterError` when any character of the
input is outside the Latin-1 range, otherwise base64-encodes the bytes. -/
def jsBtoa (s : String) : Except JsError String :=
  if s.data.all fun c => decide (c.toNat ≤ 255) then
    .ok (String.mk (b64Encode (s.data.map Char.toNat)))
  else .error .invalidCharacter

/-- Embedding of `BookAPI.generateCacheKey`: base64 of
`query.toLowerCase() + "_" + JSON.stringify(preferences)`, then strip
every character that is not an ASCII letter or digit. -/
def generateCacheKey (query : String) (preferences : JsPrefs) : Except JsError String :=
  (jsBtoa (jsToLower query ++ "_" ++ serializePrefs preferences)).map fun b =>
    String.mk (b.data.filter fun c => c.isAlpha || c.isDigit)

/-- The parsed JSON body the client reads from a recommendations
response. -/
structure ApiData where
  success : Bool
  error : Option String
  recommendations : List BookRecord
  totalResults : Nat
deriving DecidableEq

/-- The outcome of the client's `fetch` of `/api/recommendations`. -/
structure FetchResponse where
  ok : Bool
  status : Nat
  message : Option String
  data : ApiData
deriving DecidableEq

/-- The request body the client sends. -/
structure ClientRequest where
  query : String
  preferences : BuiltPrefs
deriving DecidableEq

/-- The request-body preferences construction of
`BookAPI.getRecommendations`: defaults for the four fields, then the raw
`preferences` object is spread over them, so a present key wins. -/
def buildClientPrefs (p : JsPrefs) : BuiltPrefs :=
  let base : BuiltPrefs :=
    { genres := p.genres.getD []
      authors := p.authors.getD []
      minRating := jsOrNum p.minRating 0
      maxResults := jsOrNum p.maxResults 10 }
  { genres := p.genres.getD base.genres
    authors := p.authors.getD base.authors
    minRating := p.minRating.getD base.minRating
    maxResults := p.maxResults.getD base.maxResults }

/-- Embedding of `BookAPI.getRecommendations`, with the network modelled as a function
from the request body to a fetch outcome and the wall clock as `now`:
compute the cache key (this is where `btoa` can throw), consult the
cache, validate, fetch, check `response.ok` and `data.success`, cache the
successful result.  Returns the data together with the cache after the
call. -/
def getRecommendations (cache : List (String × CacheEntry ApiData)) (now : Int)
    (query : String) (preferences : JsPrefs)
    (backend : ClientRequest → Except JsError FetchResponse) :
    Except JsError (ApiData × List (String × CacheEntry ApiData)) := do
  let cacheKey ← generateCacheKey query preferences
  match getFromCache cache cacheKey now with
  | (some d, c) => return (d, c)
  | (none, c) =>
    if (jsTrim query).length < 2 then
      throw (.jsError "Search query must be at least 2 characters long")
    else do
      let resp ← backend { query := jsTrim query, preferences := buildClientPrefs preferences }
      if !resp.ok then
        throw (.jsError (resp.message.getD ("HTTP error! status: " ++ toString resp.status)))
      else if !resp.data.success then
        throw (.jsError ((resp.data.error).getD "Failed to get recommendations"))
      else
        return (resp.data, setCache c cacheKey resp.data now)

end BookAPI

namespace Server

/-- The `preferences` object built for the ML request in the server's
`/api/recommendations` handler: explicit defaults including
`maxResults: Math.min(preferences?.maxResults || 10, 20)`, after which
`...preferences` spreads the raw object over the defaults, so any present
key — including `maxResults` — overrides its defaulted/clamped value. -/
def buildMlPreferences (p : Option JsPrefs) : BuiltPrefs :=
  let base : BuiltPrefs :=
    { genres := (p.bind JsPrefs.genres).getD []
      authors := (p.bind JsPrefs.authors).getD []
      minRating := jsOrNum (p.bind JsPrefs.minRating) 0
      maxResults := min (jsOrNum (p.bind JsPrefs.maxResults) 10) 20 }
  match p with
  | none => base
  | some pv =>
    { genres := pv.genres.getD base.genres
      authors := pv.authors.getD base.authors
      minRating := pv.minRating.getD base.minRating
      maxResults := pv.maxResults.getD base.maxResults }

/-- The request forwarded to the ML service. -/
structure MlRequest where
  query : String
  preferences : BuiltPrefs
deriving DecidableEq

/-- The outcome of the server's axios call to the ML service, one
constructor per branch of the catch handler: success, `ECONNREFUSED`,
a structured 400 rejection, `ENOTFOUND`, `ETIMEDOUT`, and any other
failure. -/
inductive BackendOutcome where
  | ok (recommendations : List BookRecord) (totalResults : Nat)
  | connRefused
  | badRequest (error : Option String) (message : Option String)
  | notFound
  | timedOut
  | failure
deriving DecidableEq

/-- The JSON body (plus status code) the server sends back.  `none` in an
`Option` field models an absent JSON key; in particular `fallback` is
present only on the fallback endpoint. -/
structure HttpResponse where
  status : Nat
  success : Bool
  error : Option String
  message : Option String
  queryEcho : Option String
  recommendations : List BookRecord
  totalResults : Nat
  fallback : Option Bool
deriving DecidableEq

/-- The 400 response of the first validation branch. -/
def tooShortResponse : HttpResponse :=
  { status := 400, success := false
    error := some "Query must be a string with at least 2 characters"
    message := none, queryEcho := none, recommendations := [], totalResults := 0
    fallback := none }

/-- The 400 response of the length-cap validation branch. -/
def tooLongResponse : HttpResponse :=
  { status := 400, success := false
    error := some "Query is too long (max 500 characters)"
    message := none, queryEcho := none, recommendations := [], totalResults := 0
    fallback := none }

/-- The server's `POST /api/recommendations` handler.  `query = none`
models a missing or non-string `query` field.  The Boolean of the result
records whether the ML service was invoked. -/
def handleRecommendations (query : Option String) (preferences : Option JsPrefs)
    (backend : MlRequest → BackendOutcome) : HttpResponse × Bool :=
  match query with
  | none => (tooShortResponse, false)
  | some q =>
    if (jsTrim q).length < 2 then (tooShortResponse, false)
    else if 500 < q.length then (tooLongResponse, false)
    else
      let req : MlRequest := { query := jsTrim q, preferences := buildMlPreferences preferences }
      match backend req with
      | .ok recs total =>
        ({ status := 200, success := true, error := none, message := none
           queryEcho := some q, recommendations := recs, totalResults := total
           fallback := none }, true)
      | .connRefused =>
        ({ status := 503, success := false
           error := some "Recommendation service is temporarily unavailable"
           message := some "Please try again in a few moments"
           queryEcho := none, recommendations := [], totalResults := 0
           fallback := none }, true)
      | .badRequest e m =>
        ({ status := 400, success := false
           error := some (e.getD "Invalid request")
           message := some (m.getD "Please check your input")
           queryEcho := none, recommendations := [], totalResults := 0
           fallback := none }, true)
      | .notFound =>
        ({ status := 503, success := false
           error := some "Service temporarily unavailable"
           message := some "Please try again later"
           queryEcho := none, recommendations := [], totalResults := 0
           fallback := none }, true)
      | .timedOut =>
        ({ status := 503, success := false
           error := some "Service temporarily unavailable"
           message := some "Please try again later"
           queryEcho := none, recommendations := [], totalResults := 0
           fallback := none }, true)
      | .failure =>
        ({ status := 500, success := false
           error := some "Internal server error"
           message := some "An unexpected error occurred while processing your request"
           queryEcho := none, recommendations := [], totalResults := 0
           fallback := none }, true)

/-- The mock data served by `POST /api/recommendations/fallback`. -/
def fallbackBooks : List BookRecord :=
  [{ id := 1, title := "The Seven Husbands of Evelyn Hugo"
     author := "Taylor Jenkins Reid"
     description := "A reclusive Hollywood icon finally tells her story to a young journalist, revealing secrets about her glamorous and scandalous life."
     cover := "https://images.pexels.com/photos/1130980/pexels-photo-1130980.jpeg?auto=compress&cs=tinysrgb&w=300&h=400&fit=crop"
     rating := 4.8, genre := "Historical Fiction", similarity := 0.92 },
   { id := 2, title := "Where the Crawdads Sing"
     author := "Delia Owens"
     description := "A mystery and coming-of-age story set in the marshlands of North Carolina, following a young woman who raised herself in isolation."
     cover := "https://images.pexels.com/photos/1130626/pexels-photo-1130626.jpeg?auto=compress&cs=tinysrgb&w=300&h=400&fit=crop"
     rating := 4.6, genre := "Mystery", similarity := 0.89 },
   { id := 3, title := "The Midnight Library"
     author := "Matt Haig"
     description := "A philosophical novel about a library that exists between life and death, where each book represents a different life you could have lived."
     cover := "https://images.pexels.com/photos/1130641/pexels-photo-1130641.jpeg?auto=compress&cs=tinysrgb&w=300&h=400&fit=crop"
     rating := 4.5, genre := "Philosophy", similarity := 0.87 }]

/-- The server's `POST /api/recommendations/fallback` handler: no
validation, always a 200 with the mock list and `fallback: true`. -/
def handleFallback (query : Option String) : HttpResponse :=
  { status := 200, success := true, error := none, message := none
    queryEcho := query, recommendations := fallbackBooks
    totalResults := fallbackBooks.length, fallback := some true }

end Server

section Claims

open ModelIntegration BookAPI Server

/-- C1, counterexample: with the valid query "ab" and the scoring backend
refusing the connection, the main `/api/recommendations` handler responds
with `success: false` and no `fallback` marker — not the `success: true`,
`fallback: true` response the claim asserts. -/
theorem c1_counterexample :
    (handleRecommendations (some "ab") none fun _ => BackendOutcome.connRefused).1.success = false ∧
    (handleRecommendations (some "ab") none fun _ => BackendOutcome.connRefused).1.fallback = none ∧
    (handleRecommendations (some "ab") none fun _ => BackendOutcome.connRefused).1.status = 503 := by
  decide

/-- C1, amended: for every validated query, when the backend is
unreachable (`ECONNREFUSED`, `ENOTFOUND`) or times out (`ETIMEDOUT`) the
main handler surfaces the failure as a `success: false` response with
status 503 and no `fallback` field; the `success: true` / `fallback:
true` response with a non-empty recommendation list exists only on the
separate `/api/recommendations/fallback` endpoint, which the main
handler never invokes. -/
theorem c1_amended : ∀ (s : String) (prefs : Option JsPrefs),
    2 ≤ (jsTrim s).length → s.length ≤ 500 →
    (∀ out : BackendOutcome,
      (out = .connRefused ∨ out = .notFound ∨ out = .timedOut) →
      (handleRecommendations (some s) prefs fun _ => out).1.success = false ∧
      (handleRecommendations (some s) prefs fun _ => out).1.status = 503 ∧
      (handleRecommendations (some s) prefs fun _ => out).1.fallback = none) ∧
    (handleFallback (some s)).success = true ∧
    (handleFallback (some s)).fallback = some true ∧
    (handleFallback (some s)).recommendations ≠ [] := by
  intro s prefs h1 h2
  have hv : ¬ (jsTrim s).length < 2 := by omega
  have hl : ¬ 500 < s.length := by omega
  refine ⟨?_, rfl, rfl, by simp [handleFallback, fallbackBooks]⟩
  rintro out (rfl | rfl | rfl) <;> simp [handleRecommendations, hv, hl]

/-- C1, witness for the amended theorem at the query "ab" with a
timed-out backend. -/
theorem c1_amended_witness :
    (handleRecommendations (some "ab") none fun _ => BackendOutcome.timedOut).1.success = false ∧
    (handleRecommendations (some "ab") none fun _ => BackendOutcome.timedOut).1.status = 503 ∧
    (handleRecommendations (some "ab") none fun _ => BackendOutcome.timedOut).1.fallback = none :=
  (c1_amended "ab" none (by decide) (by decide)).1 BackendOutcome.timedOut (Or.inr (Or.inr rfl))

/-- C2, counterexample: a candidate with similarity exactly 0 and no
feature matches gets relevanceScore 0.5 (the `|| 0.5` default treats the
falsy 0 as absent), not the 0 the claim's formula
`similarity + boosts, clamped` predicts. -/
theorem c2_counterexample :
    calculateRelevanceScore ⟨some 0, none, none, none⟩ ⟨[], []⟩ = 1/2 ∧
    calculateRelevanceScore ⟨some 0, none, none, none⟩ ⟨[], []⟩ ≠ min 0 1 := by
  constructor <;> norm_num [calculateRelevanceScore, genreMatch, authorMatch, min_def]

/-- C2, amended: relevanceScore equals the similarity plus 0.10 for a
matching extracted genre plus 0.15 for a matching extracted author,
clamped to at most 1.0, provided the similarity is present and nonzero;
an absent or zero similarity is replaced by the default base 0.5 before
the boosts.  A book with similarity 0.85 and a matching extracted genre
gets 0.95. -/
theorem c2_amended : ∀ (b : Book) (f : QueryFeatures) (s : ℚ),
    (b.similarity = some s → s ≠ 0 →
      calculateRelevanceScore b f =
        min (s + (if genreMatch b f then 0.1 else 0)
               + (if authorMatch b f then 0.15 else 0)) 1) ∧
    (b.similarity = none ∨ b.similarity = some 0 →
      calculateRelevanceScore b f =
        min (0.5 + (if genreMatch b f then 0.1 else 0)
               + (if authorMatch b f then 0.15 else 0)) 1) ∧
    calculateRelevanceScore ⟨some 0.85, some "Mystery", none, some 4.6⟩ ⟨["mystery"], []⟩ = 0.95 := by
  intro b f s
  have hg : genreMatch ⟨some 0.85, some "Mystery", none, some 4.6⟩ ⟨["mystery"], []⟩ = true := by
    decide
  have ha : authorMatch ⟨some 0.85, some "Mystery", none, some 4.6⟩ ⟨["mystery"], []⟩ = false := by
    decide
  refine ⟨?_, ?_, by simp only [calculateRelevanceScore, hg, ha]; norm_num [min_def]⟩
  · intro hb hs
    simp only [calculateRelevanceScore, hb]
    rw [if_neg hs]
    split_ifs <;> norm_num
  · rintro (hb | hb) <;> simp only [calculateRelevanceScore, hb] <;>
      norm_num <;> split_ifs <;> norm_num

/-- C2, witness for the amended theorem at the 0.85-similarity book. -/
theorem c2_amended_witness :
    calculateRelevanceScore ⟨some 0.85, some "Mystery", none, some 4.6⟩ ⟨["mystery"], []⟩ =
      min ((0.85 : ℚ)
        + (if genreMatch ⟨some 0.85, some "Mystery", none, some 4.6⟩ ⟨["mystery"], []⟩ then 0.1 else 0)
        + (if authorMatch ⟨some 0.85, some "Mystery", none, some 4.6⟩ ⟨["mystery"], []⟩ then 0.15 else 0)) 1 :=
  (c2_amended ⟨some 0.85, some "Mystery", none, some 4.6⟩ ⟨["mystery"], []⟩ 0.85).1 rfl (by norm_num)

/-- C3, counterexample: with `preferences.maxResults = 100` the value
forwarded to the scoring backend is 100, above the claimed ceiling of
20 — the trailing `...preferences` spread overrides the clamped field. -/
theorem c3_counterexample :
    (buildMlPreferences (some ⟨none, none, none, some 100⟩)).maxResults = 100 ∧
    ¬ (buildMlPreferences (some ⟨none, none, none, some 100⟩)).maxResults ≤ 20 := by
  constructor <;> norm_num [buildMlPreferences]

/-- C3, amended: the effective maxResults forwarded to the scoring
backend equals `preferences.maxResults` verbatim whenever the key is
present (the raw-object spread overrides the clamped default), and 10
when it is absent; no clamping to [1,20] takes effect. -/
theorem c3_amended : ∀ p : Option JsPrefs,
    (buildMlPreferences p).maxResults = (p.bind JsPrefs.maxResults).getD 10 := by
  intro p
  rcases p with _ | ⟨g, a, r, m⟩
  · norm_num [buildMlPreferences, jsOrNum]
  · rcases m with _ | v
    · norm_num [buildMlPreferences, jsOrNum]
    · simp [buildMlPreferences]

/-- C8: the query type is decided by the first matching rule of the
fixed cascade — "by "/"author", then "like "/"similar to", then a
non-empty genre set, then short-with-uppercase-initial, else
description — and the query "mystery novels like Agatha Christie" has
"mystery" in its extracted genres yet is classified "similar". -/
theorem c8_query_type_priority : ∀ q : String,
    ((jsIncludes (jsToLower q) "by " || jsIncludes (jsToLower q) "author") = true →
      determineQueryType q = "author") ∧
    ((jsIncludes (jsToLower q) "by " || jsIncludes (jsToLower q) "author") = false →
      (jsIncludes (jsToLower q) "like " || jsIncludes (jsToLower q) "similar to") = true →
      determineQueryType q = "similar") ∧
    ((jsIncludes (jsToLower q) "by " || jsIncludes (jsToLower q) "author") = false →
      (jsIncludes (jsToLower q) "like " || jsIncludes (jsToLower q) "similar to") = false →
      (extractGenres q).isEmpty = false →
      determineQueryType q = "genre") ∧
    ((jsIncludes (jsToLower q) "by " || jsIncludes (jsToLower q) "author") = false →
      (jsIncludes (jsToLower q) "like " || jsIncludes (jsToLower q) "similar to") = false →
      (extractGenres q).isEmpty = true →
      (decide (q.length < 30) && startsWithUpper q) = true →
      determineQueryType q = "title") ∧
    ((jsIncludes (jsToLower q) "by " || jsIncludes (jsToLower q) "author") = false →
      (jsIncludes (jsToLower q) "like " || jsIncludes (jsToLower q) "similar to") = false →
      (extractGenres q).isEmpty = true →
      (decide (q.length < 30) && startsWithUpper q) = false →
      determineQueryType q = "description") ∧
    (determineQueryType "mystery novels like Agatha Christie" = "similar" ∧
      "mystery" ∈ extractGenres "mystery novels like Agatha Christie") := by
  intro q
  refine ⟨?_, ?_, ?_, ?_, ?_, by decide⟩ <;> intros <;> simp [determineQueryType, *]

/-- C8, witness: the second rule applied to a concrete "like" query. -/
theorem c8_query_type_witness :
    determineQueryType "thrillers like Gillian Flynn" = "similar" :=
  (c8_query_type_priority "thrillers like Gillian Flynn").2.1 (by decide) (by decide)

/-- C10: the query "日本の本" has trimmed length at least 2 and contains
characters outside the Latin-1 range; on it, `generateCacheKey` throws
btoa's InvalidCharacterError, and `getRecommendations` (with an empty
cache) propagates that exception whatever the backend and clock do — the
caller gets the exception instead of a recommendation or validation
response. -/
theorem c10_cache_key_throws :
    2 ≤ (jsTrim "日本の本").length ∧
    (∃ c ∈ ("日本の本" : String).data, 255 < c.toNat) ∧
    generateCacheKey "日本の本" ⟨none, none, none, none⟩ = .error .invalidCharacter ∧
    ∀ (backend : ClientRequest → Except JsError FetchResponse) (now : Int),
      getRecommendations [] now "日本の本" ⟨none, none, none, none⟩ backend =
        .error .invalidCharacter :=
  ⟨by decide, by decide, rfl, fun backend now => rfl⟩

/-- Inserting a key that is not yet present appends it at the end. -/
theorem mapSet_of_not_mem {κ α : Type} [DecidableEq κ] (m : List (κ × α)) (k : κ) (v : α)
    (h : k ∉ m.map Prod.fst) : mapSet m k v = m ++ [(k, v)] := by
  have hA : ¬ ((m.any fun p => decide (p.1 = k)) = true) := by
    rw [List.any_eq_true]
    rintro ⟨p, hp, hpk⟩
    rw [decide_eq_true_eq] at hpk
    exact h (hpk ▸ List.mem_map_of_mem Prod.fst hp)
  simp only [mapSet, if_neg hA]

/-- Deleting the key of the head entry removes the head. -/
theorem mapDelete_cons_self {κ α : Type} [DecidableEq κ] (e : κ × α) (l : List (κ × α)) :
    mapDelete (e :: l) e.1 = mapDelete l e.1 := by
  simp [mapDelete]

/-- Deleting never lengthens the store. -/
theorem mapDelete_length_le {κ α : Type} [DecidableEq κ] (l : List (κ × α)) (k : κ) :
    (mapDelete l k).length ≤ l.length :=
  List.length_filter_le _ _

/-- Deleting an absent key leaves the store unchanged. -/
theorem mapDelete_of_not_mem {κ α : Type} [DecidableEq κ] (l : List (κ × α)) (k : κ)
    (h : k ∉ l.map Prod.fst) : mapDelete l k = l := by
  rw [mapDelete, List.filter_eq_self]
  intro p hp
  simp only [Bool.not_eq_true', decide_eq_false_iff_not]
  intro he
  exact h (he ▸ List.mem_map_of_mem Prod.fst hp)

/-- C4: the cache size never exceeds 50 entries; when a store already
holds 50 distinct keys and a 51st distinct key is put, exactly the
oldest-inserted entry is evicted — the result is the old store minus its
head plus the new entry at the end, of size 50. -/
theorem c4_cache_bound_eviction : ∀ {κ α : Type} [DecidableEq κ]
    (cache : List (κ × BookAPI.CacheEntry α)) (k : κ) (d : α) (now : Int),
    (cache.length ≤ 50 → (setCache cache k d now).length ≤ 50) ∧
    ((cache.map Prod.fst).Nodup → cache.length = 50 → k ∉ cache.map Prod.fst →
      setCache cache k d now = cache.tail ++ [(k, ⟨d, now⟩)] ∧
      (setCache cache k d now).length = 50) := by
  intro κ α inst cache k d now
  constructor
  · intro h50
    by_cases hmem : (cache.any fun p => decide (p.1 = k)) = true
    · have hc2 : mapSet cache k ⟨d, now⟩ =
          cache.map fun p => if p.1 = k then (k, ⟨d, now⟩) else p := by
        unfold mapSet
        rw [if_pos hmem]
      simp only [setCache, hc2, List.length_map]
      rw [if_neg (by omega)]
      simpa using h50
    · have hc2 : mapSet cache k ⟨d, now⟩ = cache ++ [(k, ⟨d, now⟩)] := by
        unfold mapSet
        rw [if_neg hmem]
      simp only [setCache, hc2]
      by_cases h51 : 50 < (cache ++ [(k, (⟨d, now⟩ : BookAPI.CacheEntry α))]).length
      · rw [if_pos h51]
        rcases cache with _ | ⟨e, rest⟩
        · simp at h51
        · simp only [List.cons_append]
          calc (mapDelete (e :: (rest ++ [(k, (⟨d, now⟩ : BookAPI.CacheEntry α))])) e.1).length
              = (mapDelete (rest ++ [(k, (⟨d, now⟩ : BookAPI.CacheEntry α))]) e.1).length := by
                rw [mapDelete_cons_self]
            _ ≤ (rest ++ [(k, (⟨d, now⟩ : BookAPI.CacheEntry α))]).length :=
                mapDelete_length_le _ _
            _ ≤ 50 := by
                simp only [List.length_append, List.length_cons, List.length_nil]
                simp only [List.length_cons] at h50
                omega
      · rw [if_neg h51]
        omega
  · intro hnodup hlen hnew
    have hc : mapSet cache k ⟨d, now⟩ = cache ++ [(k, ⟨d, now⟩)] :=
      mapSet_of_not_mem _ _ _ hnew
    rcases cache with _ | ⟨e, rest⟩
    · simp at hlen
    · have hlen' : rest.length = 49 := by simpa using hlen
      simp only [List.map_cons, List.nodup_cons] at hnodup
      obtain ⟨henotin, hnodup'⟩ := hnodup
      have hkne : k ≠ e.1 := by
        intro hk
        exact hnew (by simp [hk])
      have heq : setCache (e :: rest) k d now =
          rest ++ [(k, (⟨d, now⟩ : BookAPI.CacheEntry α))] := by
        simp only [setCache, hc, List.cons_append]
        rw [if_pos (by simp [hlen'])]
        rw [mapDelete_cons_self]
        exact mapDelete_of_not_mem _ _ (by
          simp only [List.map_append, List.map_cons, List.map_nil, List.mem_append,
            List.mem_singleton]
          rintro (h1 | h2)
          · exact henotin h1
          · exact hkne h2.symm)
      exact ⟨by rw [heq]; rfl, by rw [heq]; simp [hlen']⟩

/-- C4, witness: a 50-entry store with keys 0..49 and the fresh key 50. -/
theorem c4_witness :
    setCache ((List.range 50).map fun i => (i, (⟨0, 0⟩ : BookAPI.CacheEntry Nat))) 50 0 0 =
      ((List.range 50).map fun i => (i, (⟨0, 0⟩ : BookAPI.CacheEntry Nat))).tail ++ [(50, ⟨0, 0⟩)] ∧
    (setCache ((List.range 50).map fun i => (i, (⟨0, 0⟩ : BookAPI.CacheEntry Nat))) 50 0 0).length = 50 :=
  (c4_cache_bound_eviction ((List.range 50).map fun i => (i, (⟨0, 0⟩ : BookAPI.CacheEntry Nat)))
    50 0 0).2 (by simp [List.map_map, Function.comp_def, List.nodup_range]) (by simp)
    (by simp [List.map_map, Function.comp_def])

/-- C5: for an entry stored with timestamp T, a get at T+299s is a hit
returning the data and leaving the store unchanged; a get at T+301s is a
miss that removes the entry; and a get at any instant more than the
5-minute TTL after T reports a miss. -/
theorem c5_cache_ttl : ∀ {κ α : Type} [DecidableEq κ]
    (cache : List (κ × BookAPI.CacheEntry α)) (k : κ) (d : α) (T : Int),
    mapGet cache k = some ⟨d, T⟩ →
    getFromCache cache k (T + 299000) = (some d, cache) ∧
    getFromCache cache k (T + 301000) = (none, mapDelete cache k) ∧
    ∀ now : Int, cacheTimeout < now - T → (getFromCache cache k now).1 = none := by
  intro κ α inst cache k d T h
  refine ⟨?_, ?_, ?_⟩
  · simp [getFromCache, h]
    norm_num [cacheTimeout]
  · simp [getFromCache, h]
    norm_num [cacheTimeout]
  · intro now hno
    simp [getFromCache, h, hno]

/-- C5, witness: a concrete singleton store probed at the two boundary
instants. -/
theorem c5_witness :
    getFromCache [(0, (⟨7, 100⟩ : BookAPI.CacheEntry Nat))] 0 (100 + 299000) =
      (some 7, [(0, ⟨7, 100⟩)]) ∧
    getFromCache [(0, (⟨7, 100⟩ : BookAPI.CacheEntry Nat))] 0 (100 + 301000) =
      (none, mapDelete [(0, ⟨7, 100⟩)] 0) :=
  ⟨(c5_cache_ttl [(0, (⟨7, 100⟩ : BookAPI.CacheEntry Nat))] 0 7 100 (by decide)).1,
   (c5_cache_ttl [(0, (⟨7, 100⟩ : BookAPI.CacheEntry Nat))] 0 7 100 (by decide)).2.1⟩

set_option maxRecDepth 100000 in
/-- C6, counterexample: the 501-character query "ab" followed by 499
spaces has trimmed length 2 — inside the claimed acceptance interval
[2,500] — yet the handler rejects it with a 400 validation error and
never invokes the backend, because the upper bound is checked on the raw
(untrimmed) length. -/
theorem c6_counterexample :
    2 ≤ (jsTrim ("ab" ++ String.mk (List.replicate 499 ' '))).length ∧
    (jsTrim ("ab" ++ String.mk (List.replicate 499 ' '))).length ≤ 500 ∧
    (handleRecommendations (some ("ab" ++ String.mk (List.replicate 499 ' '))) none
      fun _ => BackendOutcome.connRefused).1.status = 400 ∧
    (handleRecommendations (some ("ab" ++ String.mk (List.replicate 499 ' '))) none
      fun _ => BackendOutcome.connRefused).1.success = false ∧
    (handleRecommendations (some ("ab" ++ String.mk (List.replicate 499 ' '))) none
      fun _ => BackendOutcome.connRefused).2 = false := by
  refine ⟨by decide, by decide, by decide, by decide, by decide⟩

/-- C6, amended: validation accepts exactly the queries whose trimmed
length is at least 2 and whose raw (untrimmed) length is at most 500;
the backend is invoked exactly on accepted queries, a too-short query
gets the 400 "at least 2 characters" error and a too-long one the 400
"too long" error, and both rejections leave the backend uncalled. -/
theorem c6_amended : ∀ (s : String) (prefs : Option JsPrefs)
    (backend : MlRequest → BackendOutcome),
    ((handleRecommendations (some s) prefs backend).2 = true ↔
      2 ≤ (jsTrim s).length ∧ s.length ≤ 500) ∧
    ((jsTrim s).length < 2 →
      handleRecommendations (some s) prefs backend = (tooShortResponse, false)) ∧
    (2 ≤ (jsTrim s).length → 500 < s.length →
      handleRecommendations (some s) prefs backend = (tooLongResponse, false)) ∧
    tooShortResponse.success = false ∧ tooShortResponse.status = 400 := by
  intro s prefs backend
  refine ⟨?_, ?_, ?_, rfl, rfl⟩
  · by_cases hv : (jsTrim s).length < 2
    · simp only [handleRecommendations, if_pos hv]
      constructor
      · intro hfalse
        exact absurd hfalse (by simp)
      · intro hacc
        omega
    · by_cases hl : 500 < s.length
      · simp only [handleRecommendations, if_neg hv, if_pos hl]
        constructor
        · intro hfalse
          exact absurd hfalse (by simp)
        · intro hacc
          omega
      · constructor
        · intro _
          omega
        · intro _
          simp only [handleRecommendations, if_neg hv, if_neg hl]
          cases hB : backend { query := jsTrim s, preferences := buildMlPreferences prefs } <;>
            simp [hB]
  · intro hv
    simp [handleRecommendations, hv]
  · intro h2 hl
    have hv : ¬ (jsTrim s).length < 2 := by omega
    simp [handleRecommendations, hv, hl]

/-- C6, witness: "ab" is accepted (backend invoked) and "a" is rejected
with the validation response. -/
theorem c6_witness :
    (handleRecommendations (some "ab") none fun _ => BackendOutcome.connRefused).2 = true ∧
    handleRecommendations (some "a") none (fun _ => BackendOutcome.connRefused) =
      (tooShortResponse, false) :=
  ⟨(c6_amended "ab" none fun _ => BackendOutcome.connRefused).1.mpr (by decide),
   (c6_amended "a" none fun _ => BackendOutcome.connRefused).2.1 (by decide)⟩

/-- C7, counterexample: on the query "magic, dragons" the code keeps the
token "magic," with its comma — it splits the raw lowercased query — while
the claimed computation over the cleaned text would produce "magic";
the two keyword sequences differ. -/
theorem c7_counterexample :
    extractKeywords "magic, dragons" = ["magic,", "dragons"] ∧
    keywordsFromCleanedText "magic, dragons" = ["magic", "dragons"] ∧
    extractKeywords "magic, dragons" ≠ keywordsFromCleanedText "magic, dragons" := by
  refine ⟨by decide, by decide, by decide⟩

/-- C7, amended: keywords are extracted from the lowercased RAW query
(punctuation inside tokens is retained, the text is not cleaned first):
split on whitespace, keep only tokens longer than 2 characters that are
not stopwords, preserve their original order, truncate to 10. -/
theorem c7_amended : ∀ q : String,
    (extractKeywords q).length ≤ 10 ∧
    (∀ w ∈ extractKeywords q, 2 < w.length ∧ w ∉ stopWords) ∧
    (extractKeywords q).Sublist (jsSplitWs (jsToLower q)) ∧
    extractKeywords "magic, dragons and the war" = ["magic,", "dragons", "war"] := by
  intro q
  refine ⟨?_, ?_, ?_, by decide⟩
  · simp only [extractKeywords, List.length_take]
    exact min_le_left _ _
  · intro w hw
    simp only [extractKeywords] at hw
    have hw' := List.mem_of_mem_take hw
    rw [List.mem_filter] at hw'
    obtain ⟨_, hcond⟩ := hw'
    rw [Bool.and_eq_true] at hcond
    obtain ⟨h1, h2⟩ := hcond
    refine ⟨of_decide_eq_true h1, ?_⟩
    intro hmem
    rw [Bool.not_eq_true'] at h2
    simp at h2
    exact h2 hmem
  · simp only [extractKeywords]
    exact (List.take_sublist _ _).trans (List.filter_sublist _)

/-- C7, witness: the surviving token "dragons" of a concrete query is
long enough and not a stopword. -/
theorem c7_witness : 2 < ("dragons" : String).length ∧ ("dragons" : String) ∉ stopWords :=
  (c7_amended "magic, dragons").2.1 "dragons" (by decide)

/-- C9: for every candidate book (with the data-model invariant that a
present similarity is nonnegative) and every feature bundle, both the
computed relevanceScore and the computed confidence lie in [0,1], no
matter which additive boosts apply. -/
theorem c9_score_bounds : ∀ (b : Book) (f : QueryFeatures),
    (0 ≤ calculateConfidence b f ∧ calculateConfidence b f ≤ 1) ∧
    ((∀ s : ℚ, b.similarity = some s → 0 ≤ s) →
      0 ≤ calculateRelevanceScore b f ∧ calculateRelevanceScore b f ≤ 1) := by
  intro b f
  constructor
  · constructor
    · simp only [calculateConfidence]
      refine le_min ?_ (by norm_num)
      split_ifs <;> norm_num
    · simp only [calculateConfidence]
      exact min_le_right _ _
  · intro h
    constructor
    · simp only [calculateRelevanceScore]
      refine le_min ?_ (by norm_num)
      rcases hb : b.similarity with _ | s
      · dsimp only
        split_ifs <;> norm_num
      · dsimp only
        have hs := h s hb
        split_ifs <;> linarith
    · simp only [calculateRelevanceScore]
      exact min_le_right _ _

/-- C9, witness: the bounds at a concrete book and feature bundle. -/
theorem c9_witness :
    0 ≤ calculateRelevanceScore ⟨some 0.9, none, none, some 4.2⟩ ⟨["fantasy"], []⟩ ∧
    calculateRelevanceScore ⟨some 0.9, none, none, some 4.2⟩ ⟨["fantasy"], []⟩ ≤ 1 :=
  (c9_score_bounds ⟨some 0.9, none, none, some 4.2⟩ ⟨["fantasy"], []⟩).2 (by
    intro s hs
    simp only [Option.some.injEq] at hs
    rw [← hs]
    norm_num)

end Claims

end BookRec
